import Mathlib

/-!
Verification of the MySQL Automated Backup System (`mysql_backup.py`).

The development shallowly embeds the backup workflow: the integrity
verifier (`calculate_checksum`, `save_checksum`, `verify_checksum`),
the backup run (`perform_backup`) including its command construction,
publish sequence and exception handler, the retention cleanup
(`cleanup_old_backups`), and the filename generator
(`_get_backup_filename`) together with the ISO-week calculation it
relies on.  File contents are modelled as strings, a filesystem as a
partial map from paths to contents, and the SHA-256 hex digest as an
abstract function parameter `hash` (its collision behaviour enters
theorems only as explicit hypotheses).
-/

namespace MySQLBackup

/-- The exception taxonomy of the script: every error class derives from
`BackupError`; each carries a message. -/
inductive BackupErr where
  | configuration (msg : String)
  | connection (msg : String)
  | process (msg : String)
  | storage (msg : String)
  | integrity (msg : String)
  | notification (msg : String)
  deriving DecidableEq, Repr

/-- Python's `str.strip()`: drop leading and trailing whitespace.
Defined over the character list so that it reduces in the kernel. -/
def pyStrip (s : String) : String :=
  String.mk (((s.data.dropWhile Char.isWhitespace).reverse.dropWhile
      Char.isWhitespace).reverse)

/-- A filesystem fragment: a partial map from paths to file contents.
`none` means the path is absent (or unreadable, which the script cannot
distinguish from absent: both make `open` raise). -/
def FS := String → Option String

/-- Write (create or overwrite) a file. -/
def setFile (fs : FS) (p c : String) : FS :=
  fun q => if q = p then some c else fs q

/-- `IntegrityVerifier.calculate_checksum`: hash the file's bytes, raising
`IntegrityError` when the file cannot be read. -/
def calculate_checksum (hash : String → String) (fs : FS) (p : String) :
    Except BackupErr String :=
  match fs p with
  | some c => .ok (hash c)
  | none => .error (.integrity ("Failed to calculate checksum for " ++ p))

/-- `IntegrityVerifier.save_checksum`: write the digest to the sidecar file
`p + ".sha256"`. -/
def save_checksum (fs : FS) (p ck : String) : FS :=
  setFile fs (p ++ ".sha256") ck

/-- `IntegrityVerifier.verify_checksum`: if the sidecar is absent return
`(false, "Checksum file not found")`; otherwise read and strip the stored
digest, recompute the digest of the primary file (an `IntegrityError`
from that computation is re-wrapped by the surrounding handler), and
compare. -/
def verify_checksum (hash : String → String) (fs : FS) (p : String) :
    Except BackupErr (Bool × String) :=
  match fs (p ++ ".sha256") with
  | none => .ok (false, "Checksum file not found")
  | some stored =>
    match calculate_checksum hash fs p with
    | .error _ => .error (.integrity ("Failed to verify checksum for " ++ p))
    | .ok computed =>
      if pyStrip stored = computed then .ok (true, "Checksum verification passed")
      else .ok (false, "Checksum verification failed")

deriving instance DecidableEq for Except

/-- A path never equals its own sidecar path (the lengths differ). -/
theorem sidecar_ne (p : String) : p ++ ".sha256" ≠ p := by
  intro h
  have hlen := congrArg String.length h
  rw [String.length_append] at hlen
  have h7 : (".sha256" : String).length = 7 := rfl
  omega

example :
    verify_checksum id (fun _ => none) "f" = .ok (false, "Checksum file not found") := by
  decide

example :
    verify_checksum id
      (save_checksum (setFile (fun _ => none) "f" "abc") "f" "abc") "f" =
      .ok (true, "Checksum verification passed") := by
  decide

/-! ## The backup run (`BackupManager.perform_backup`)

The run is modelled against an environment describing the outcomes of
the external interactions: the shell pipeline's exit code and captured
stderr, the bytes it wrote to the scratch file, whether the notifier is
configured, and whether the mail transport delivers (separately for the
success notification inside the `try` and the failure notification
inside the `except` handler). -/

/-- Outcomes of the run's external interactions. -/
structure RunEnv where
  returncode : Int
  stderr : String
  dumpOutput : String
  notifierEnabled : Bool
  successDeliveryOk : Bool
  failureDeliveryOk : Bool
  transportErr : String
  deriving DecidableEq, Repr

/-- Observable outcome of one `perform_backup` call: the returned value or
raised exception, the files present in the final destination afterwards,
and which notifications were delivered. -/
structure RunResult where
  result : Except BackupErr String
  published : Option String
  publishedSidecar : Option String
  successNotified : Bool
  failureNotified : Bool
  deriving DecidableEq, Repr

/-- The `NotificationError` raised by `EmailNotifier.send_notification`
when the transport fails. -/
def notifFail (transportErr : String) : BackupErr :=
  .notification ("Failed to send notification: " ++ transportErr)

/-- The `except` handler of `perform_backup`: log, then (when a notifier
is configured) send a failure notification — if that send itself raises,
its `NotificationError` propagates instead of the original error — and
finally re-raise. -/
def handleFailure (env : RunEnv) (e : BackupErr)
    (published sidecar : Option String) : RunResult :=
  if env.notifierEnabled then
    if env.failureDeliveryOk then
      { result := .error e, published := published, publishedSidecar := sidecar,
        successNotified := false, failureNotified := true }
    else
      { result := .error (notifFail env.transportErr), published := published,
        publishedSidecar := sidecar, successNotified := false, failureNotified := false }
  else
    { result := .error e, published := published, publishedSidecar := sidecar,
      successNotified := false, failureNotified := false }

/-- Destination directory contents after both `shutil.move` calls:
the artifact at `backupPath` and the digest at `backupPath + ".sha256"`. -/
def destFS (backupPath content ck : String) : FS :=
  setFile (setFile (fun _ => none) backupPath content) (backupPath ++ ".sha256") ck

/-- `BackupManager.perform_backup`, from the dump invocation onward:
a non-zero exit code raises `BackupProcessError` (stderr is only quoted
in the message); otherwise the digest of the scratch file is computed
and saved, both files are moved to the destination, the published
artifact is re-verified, and on success a notification is attempted
before returning the path.  Every raised error goes through the
`except` handler `handleFailure`. -/
def perform_backup (hash : String → String) (env : RunEnv)
    (backupPath : String) : RunResult :=
  if env.returncode ≠ 0 then
    handleFailure env (.process ("Backup process failed: " ++ env.stderr)) none none
  else
    let checksum := hash env.dumpOutput
    let fsFinal := destFS backupPath env.dumpOutput checksum
    let published := some env.dumpOutput
    let sidecar := some checksum
    match verify_checksum hash fsFinal backupPath with
    | .error e => handleFailure env e published sidecar
    | .ok (false, msg) =>
        handleFailure env (.integrity ("Backup integrity check failed: " ++ msg))
          published sidecar
    | .ok (true, _) =>
        if env.notifierEnabled then
          if env.successDeliveryOk then
            { result := .ok backupPath, published := published,
              publishedSidecar := sidecar, successNotified := true,
              failureNotified := false }
          else
            handleFailure env (notifFail env.transportErr) published sidecar
        else
          { result := .ok backupPath, published := published,
            publishedSidecar := sidecar, successNotified := false,
            failureNotified := false }

/-! ## The publish step as a sequence of destination states

`perform_backup` publishes with two consecutive `shutil.move` calls:
first the artifact, then the sidecar.  `publishTrace` records every
destination-directory state reachable during that sequence. -/

/-- Contents of the final destination directory for one backup file. -/
structure DestState where
  artifact : Option String
  sidecar : Option String
  deriving DecidableEq, Repr

/-- One primitive publish operation (a `shutil.move` into the destination). -/
inductive PublishOp where
  | moveArtifact (c : String)
  | moveSidecar (s : String)
  deriving DecidableEq, Repr

/-- The publish sequence of `perform_backup`, in source order:
`shutil.move(temp_backup_path, backup_path)` then
`shutil.move(temp_backup_path + ".sha256", backup_path + ".sha256")`. -/
def publishProgram (c s : String) : List PublishOp :=
  [.moveArtifact c, .moveSidecar s]

/-- Effect of one publish operation on the destination state. -/
def applyPublishOp (st : DestState) : PublishOp → DestState
  | .moveArtifact c => { st with artifact := some c }
  | .moveSidecar s => { st with sidecar := some s }

/-- All destination states reachable while the publish sequence runs
(initial state included). -/
def publishTrace (c s : String) : List DestState :=
  List.scanl applyPublishOp ⟨none, none⟩ (publishProgram c s)

/-! ## Command construction (`perform_backup`, dump step)

The script assembles the `mysqldump | gzip` pipeline as a list of
strings and logs the joined string at info level before executing it. -/

/-- The `[database]` configuration section as the script reads it. -/
structure DbConfig where
  host : String
  port : String
  user : String
  password : Option String
  database : String
  deriving DecidableEq, Repr

/-- Python's `str.split()` with no argument: split on whitespace runs,
dropping empty pieces. -/
def pySplit (s : String) : List String :=
  (s.split Char.isWhitespace).filter (fun t => t ≠ "")

/-- The command list built by `perform_backup`: `mysqldump` with host,
port and user, the password when configured, the database name, the
extra options, and the pipe through `gzip` into the scratch path. -/
def buildCmd (cfg : DbConfig) (options tempPath : String) : List String :=
  ["mysqldump", "--host=" ++ cfg.host, "--port=" ++ cfg.port,
      "--user=" ++ cfg.user]
    ++ (match cfg.password with
        | some pw => ["--password=" ++ pw]
        | none => [])
    ++ [cfg.database]
    ++ (if options ≠ "" then pySplit options else [])
    ++ ["|", "gzip", ">", tempPath]

/-- Python's `sep.join(xs)`. -/
def pyJoin (sep : String) : List String → String
  | [] => ""
  | [x] => x
  | x :: y :: t => x ++ sep ++ pyJoin sep (y :: t)

/-- The exact string `perform_backup` writes to the info log just before
executing the pipeline. -/
def loggedCommand (cfg : DbConfig) (options tempPath : String) : String :=
  "Executing backup command: " ++ pyJoin " " (buildCmd cfg options tempPath)

/-! ## Retention cleanup (`BackupManager.cleanup_old_backups`) -/

/-- One published backup file as the cleanup sees it: its path and its
modification time (`st_mtime`, the sort key). -/
structure Artifact where
  name : String
  mtime : Nat
  deriving DecidableEq, Repr

/-- Comparison used by `backup_files.sort(key=lambda x: x.stat().st_mtime)`. -/
def mtimeLE (a b : Artifact) : Prop := a.mtime ≤ b.mtime

instance : DecidableRel mtimeLE := fun a b => Nat.decLe a.mtime b.mtime

instance : IsTotal Artifact mtimeLE := ⟨fun a b => Nat.le_total a.mtime b.mtime⟩

instance : IsTrans Artifact mtimeLE := ⟨fun _ _ _ => Nat.le_trans⟩

/-- The cleanup's sort: ascending by modification time (oldest first). -/
def sortByMtime (files : List Artifact) : List Artifact :=
  List.insertionSort mtimeLE files

/-- Python's slice `xs[:-d]` for `d : Nat` (note `xs[:-0] = xs[:0] = []`). -/
def pySliceDropLast {α : Type} (xs : List α) (d : Nat) : List α :=
  if d = 0 then [] else xs.take (xs.length - d)

/-- `backup_files[:-days] if len(backup_files) > days else []`:
the artifacts the cleanup will delete for one backup class. -/
def files_to_delete (keep : Nat) (files : List Artifact) : List Artifact :=
  let sorted := sortByMtime files
  if sorted.length > keep then pySliceDropLast sorted keep else []

/-- The artifacts the cleanup leaves in place for one backup class. -/
def kept_files (keep : Nat) (files : List Artifact) : List Artifact :=
  (sortByMtime files).drop (files_to_delete keep files).length

/-- Paths the deletion loop unlinks: for each selected artifact, its
sidecar when present, then the artifact itself. -/
def removed_paths (sidecarExists : String → Bool) (keep : Nat)
    (files : List Artifact) : List String :=
  (files_to_delete keep files).flatMap (fun f =>
    (if sidecarExists f.name then [f.name ++ ".sha256"] else []) ++ [f.name])

/-- The error-handling skeleton of `cleanup_old_backups`: the whole body
runs in a `try`; the `except` handler logs and (when a notifier is
configured) sends a failure notification, then falls through — it does
NOT re-raise, so the function returns normally unless the failure
notification itself raises.  The pair's second component records whether
a failure notification was delivered. -/
def cleanup_wrapper (body : Except BackupErr Unit)
    (notifierEnabled failureDeliveryOk : Bool) (transportErr : String) :
    Except BackupErr Unit × Bool :=
  match body with
  | .ok _ => (.ok (), false)
  | .error _ =>
    if notifierEnabled then
      if failureDeliveryOk then (.ok (), true)
      else (.error (notifFail transportErr), false)
    else (.ok (), false)

/-! ## Filename generation (`BackupManager._get_backup_filename`)

The daily pattern uses `strftime('%Y%m%d')`, the weekly pattern combines
`now.year` (the calendar year) with `now.isocalendar()[1]` (the ISO week
number, zero-padded to two digits), the monthly pattern uses year and
zero-padded month, and the ad-hoc pattern a full timestamp.  The ISO
week calculation below reproduces `datetime.isocalendar()` on the
proleptic Gregorian calendar. -/

/-- A wall-clock instant as `datetime.now()` exposes it. -/
structure Date where
  year : Nat
  month : Nat
  day : Nat
  hour : Nat
  minute : Nat
  second : Nat
  deriving DecidableEq, Repr

/-- Gregorian leap-year test. -/
def isLeap (y : Nat) : Bool :=
  (y % 4 = 0 && y % 100 ≠ 0) || y % 400 = 0

/-- Length of a month. -/
def daysInMonth (y m : Nat) : Nat :=
  if m = 2 then (if isLeap y then 29 else 28)
  else if m = 4 || m = 6 || m = 9 || m = 11 then 30
  else 31

/-- Ordinal day within the year (Jan 1 ↦ 1). -/
def dayOfYear (d : Date) : Nat :=
  (List.range (d.month - 1)).foldl (fun acc m => acc + daysInMonth d.year (m + 1)) 0
    + d.day

/-- Proleptic Gregorian rata die: day count with 0001-01-01 ↦ 1
(a Monday). -/
def rataDie (d : Date) : Nat :=
  365 * (d.year - 1) + ((d.year - 1) / 4 - (d.year - 1) / 100) + (d.year - 1) / 400
    + dayOfYear d

/-- ISO weekday: Monday ↦ 1 … Sunday ↦ 7. -/
def isoWeekday (d : Date) : Nat :=
  (rataDie d - 1) % 7 + 1

/-- Weekday of 31 December of year `y` (helper for the 52/53-week rule). -/
def pIso (y : Nat) : Nat :=
  (y + y / 4 - y / 100 + y / 400) % 7

/-- Number of ISO weeks in year `y` (52 or 53). -/
def isoWeeksInYear (y : Nat) : Nat :=
  if pIso y = 4 || pIso (y - 1) = 3 then 53 else 52

/-- `datetime.isocalendar()` restricted to its first two components:
the ISO year and the ISO week number. -/
def isoWeekPair (d : Date) : Nat × Nat :=
  let w := (dayOfYear d + 10 - isoWeekday d) / 7
  if w < 1 then (d.year - 1, isoWeeksInYear (d.year - 1))
  else if w > isoWeeksInYear d.year then (d.year + 1, 1)
  else (d.year, w)

/-- Zero-pad to two digits (`%02d`, and `%m`/`%d`/`%H`/`%M`/`%S`). -/
def pad2 (n : Nat) : String :=
  if n < 10 then "0" ++ toString n else toString n

/-- Zero-pad to four digits (`%Y`). -/
def pad4 (n : Nat) : String :=
  if n < 10 then "000" ++ toString n
  else if n < 100 then "00" ++ toString n
  else if n < 1000 then "0" ++ toString n
  else toString n

/-- `BackupManager._get_backup_filename`. -/
def get_backup_filename (db backupType : String) (d : Date) : String :=
  if backupType = "daily" then
    db ++ "_daily_" ++ pad4 d.year ++ pad2 d.month ++ pad2 d.day ++ ".sql.gz"
  else if backupType = "weekly" then
    db ++ "_weekly_" ++ toString d.year ++ "_week" ++ pad2 (isoWeekPair d).2
      ++ ".sql.gz"
  else if backupType = "monthly" then
    db ++ "_monthly_" ++ toString d.year ++ "_" ++ pad2 d.month ++ ".sql.gz"
  else
    db ++ "_ad_hoc_" ++ pad4 d.year ++ pad2 d.month ++ pad2 d.day ++ "_"
      ++ pad2 d.hour ++ pad2 d.minute ++ pad2 d.second ++ ".sql.gz"

example : isoWeekPair ⟨2024, 3, 5, 0, 0, 0⟩ = (2024, 10) := by decide
example : isoWeekPair ⟨2024, 1, 1, 0, 0, 0⟩ = (2024, 1) := by decide
example : isoWeekPair ⟨2024, 12, 30, 0, 0, 0⟩ = (2025, 1) := by decide
example : isoWeekPair ⟨2023, 1, 1, 0, 0, 0⟩ = (2022, 52) := by decide
example : isoWeekPair ⟨2021, 1, 1, 0, 0, 0⟩ = (2020, 53) := by decide
example : isoWeekPair ⟨2020, 12, 31, 0, 0, 0⟩ = (2020, 53) := by decide
example : isoWeekday ⟨2024, 3, 5, 0, 0, 0⟩ = 2 := by decide
example :
    get_backup_filename "shop" "daily" ⟨2024, 3, 5, 0, 0, 0⟩ =
      "shop_daily_20240305.sql.gz" := by decide

/-! ## Theorems -/

/-- Two strings with the same character data are equal. -/
theorem string_eq_of_data_eq (s t : String) (h : s.data = t.data) : s = t := by
  cases s; cases t; exact congrArg String.mk (by simpa using h)

/-- C8: The generated backup filename for database `db` is
`db_daily_20240305.sql.gz` for class daily at date 2024-03-05,
`db_weekly_2024_week10.sql.gz` for class weekly at a 2024 date whose ISO
week number is 10, and `db_monthly_2024_03.sql.gz` for class monthly in
March 2024. -/
theorem C8_filename_patterns (db : String) :
    (∀ hh mi ss, get_backup_filename db "daily" ⟨2024, 3, 5, hh, mi, ss⟩ =
        db ++ "_daily_20240305.sql.gz")
  ∧ (∀ d : Date, d.year = 2024 → (isoWeekPair d).2 = 10 →
        get_backup_filename db "weekly" d = db ++ "_weekly_2024_week10.sql.gz")
  ∧ (∀ d : Date, d.year = 2024 → d.month = 3 →
        get_backup_filename db "monthly" d = db ++ "_monthly_2024_03.sql.gz") := by
  refine ⟨fun hh mi ss => ?_, fun d hy hw => ?_, fun d hy hm => ?_⟩
  · have e : get_backup_filename db "daily" ⟨2024, 3, 5, hh, mi, ss⟩ =
        db ++ "_daily_" ++ pad4 2024 ++ pad2 3 ++ pad2 5 ++ ".sql.gz" := rfl
    rw [e, show pad4 2024 = "2024" from by decide,
      show pad2 3 = "03" from by decide, show pad2 5 = "05" from by decide]
    simp [String.append_assoc]
  · have e : get_backup_filename db "weekly" d =
        db ++ "_weekly_" ++ toString d.year ++ "_week" ++ pad2 (isoWeekPair d).2
          ++ ".sql.gz" := rfl
    rw [e, hw, hy, show toString (2024 : Nat) = "2024" from rfl,
      show pad2 10 = "10" from by decide]
    simp [String.append_assoc]
  · have e : get_backup_filename db "monthly" d =
        db ++ "_monthly_" ++ toString d.year ++ "_" ++ pad2 d.month
          ++ ".sql.gz" := rfl
    rw [e, hy, hm, show toString (2024 : Nat) = "2024" from rfl,
      show pad2 3 = "03" from by decide]
    simp [String.append_assoc]

/-- Witness for C8 at database `"shop"` and date 2024-03-05 12:34:56. -/
theorem C8_filename_patterns_witness :
    get_backup_filename "shop" "daily" ⟨2024, 3, 5, 12, 34, 56⟩ =
        "shop" ++ "_daily_20240305.sql.gz"
  ∧ get_backup_filename "shop" "weekly" ⟨2024, 3, 5, 12, 34, 56⟩ =
      "shop" ++ "_weekly_2024_week10.sql.gz"
  ∧ get_backup_filename "shop" "monthly" ⟨2024, 3, 5, 12, 34, 56⟩ =
      "shop" ++ "_monthly_2024_03.sql.gz" :=
  ⟨(C8_filename_patterns "shop").1 12 34 56,
   (C8_filename_patterns "shop").2.1 ⟨2024, 3, 5, 12, 34, 56⟩ rfl (by decide),
   (C8_filename_patterns "shop").2.2 ⟨2024, 3, 5, 12, 34, 56⟩ rfl rfl⟩

/-- C10: The weekly filename combines the calendar year with the ISO week
number, so 2024-12-30 (ISO week 1 of ISO year 2025) yields
`db_weekly_2024_week01.sql.gz`, the same filename as 2024-01-01 (ISO week
1 of 2024): the period label does not uniquely identify one seven-day
week. -/
theorem C10_weekly_label_collision (db : String) :
    get_backup_filename db "weekly" ⟨2024, 12, 30, 0, 0, 0⟩ =
        db ++ "_weekly_2024_week01.sql.gz"
  ∧ isoWeekPair ⟨2024, 12, 30, 0, 0, 0⟩ = (2025, 1)
  ∧ isoWeekPair ⟨2024, 1, 1, 0, 0, 0⟩ = (2024, 1)
  ∧ get_backup_filename db "weekly" ⟨2024, 1, 1, 0, 0, 0⟩ =
      get_backup_filename db "weekly" ⟨2024, 12, 30, 0, 0, 0⟩
  ∧ (⟨2024, 1, 1, 0, 0, 0⟩ : Date) ≠ ⟨2024, 12, 30, 0, 0, 0⟩ := by
  have e1 : get_backup_filename db "weekly" ⟨2024, 12, 30, 0, 0, 0⟩ =
      db ++ "_weekly_" ++ toString (2024 : Nat) ++ "_week"
        ++ pad2 (isoWeekPair ⟨2024, 12, 30, 0, 0, 0⟩).2 ++ ".sql.gz" := rfl
  have e2 : get_backup_filename db "weekly" ⟨2024, 1, 1, 0, 0, 0⟩ =
      db ++ "_weekly_" ++ toString (2024 : Nat) ++ "_week"
        ++ pad2 (isoWeekPair ⟨2024, 1, 1, 0, 0, 0⟩).2 ++ ".sql.gz" := rfl
  have h1 : get_backup_filename db "weekly" ⟨2024, 12, 30, 0, 0, 0⟩ =
      db ++ "_weekly_2024_week01.sql.gz" := by
    rw [e1, show pad2 (isoWeekPair ⟨2024, 12, 30, 0, 0, 0⟩).2 = "01" from by decide,
      show toString (2024 : Nat) = "2024" from rfl]
    simp [String.append_assoc]
  have h2 : get_backup_filename db "weekly" ⟨2024, 1, 1, 0, 0, 0⟩ =
      db ++ "_weekly_2024_week01.sql.gz" := by
    rw [e2, show pad2 (isoWeekPair ⟨2024, 1, 1, 0, 0, 0⟩).2 = "01" from by decide,
      show toString (2024 : Nat) = "2024" from rfl]
    simp [String.append_assoc]
  exact ⟨h1, by decide, by decide, h2.trans h1.symm, by decide⟩

/-- C6 counterexample: during the publish sequence the destination passes
through a state in which the artifact is visible but its sidecar is not,
so publish is not atomic. -/
theorem C6_counterexample :
    ∃ st ∈ publishTrace "dump-bytes" "digest",
      st.artifact = some "dump-bytes" ∧ st.sidecar = none := by
  decide

/-- C6 amended: publish is two sequential moves — the artifact first, the
sidecar second — so the run passes through exactly one intermediate
destination state, which exposes the artifact without its sidecar; both
files are visible only after the second move. -/
theorem C6_publish_sequence (c s : String) :
    publishTrace c s =
      [⟨none, none⟩, ⟨some c, none⟩, ⟨some c, some s⟩] := rfl

/-- C1 counterexample: all steps through post-publish verification succeed
but the success notification's delivery raises; `perform_backup` does not
return the artifact path — the run raises — even though the artifact and
sidecar were published. -/
theorem C1_counterexample :
    (perform_backup id ⟨0, "", "dumpdata", true, false, false, "connection refused"⟩
        "/backups/daily/shop_daily_20240305.sql.gz").result ≠
      .ok "/backups/daily/shop_daily_20240305.sql.gz"
  ∧ (perform_backup id ⟨0, "", "dumpdata", true, false, false, "connection refused"⟩
        "/backups/daily/shop_daily_20240305.sql.gz").published = some "dumpdata"
  ∧ (perform_backup id ⟨0, "", "dumpdata", true, false, false, "connection refused"⟩
        "/backups/daily/shop_daily_20240305.sql.gz").publishedSidecar =
      some "dumpdata" := by
  decide

/-- C1 amended: when the delivery of the success notification raises after
an otherwise successful run, the published artifact and sidecar remain in
place, but `perform_backup` does not report success: the
`NotificationError` is routed through the failure handler and the call
raises, so notification failure escalates into a backup-run failure. -/
theorem C1_notification_failure_escalates (hash : String → String) (env : RunEnv)
    (p : String)
    (hrc : env.returncode = 0)
    (htrim : pyStrip (hash env.dumpOutput) = hash env.dumpOutput)
    (hen : env.notifierEnabled = true)
    (hsd : env.successDeliveryOk = false) :
    (perform_backup hash env p).published = some env.dumpOutput
  ∧ (perform_backup hash env p).publishedSidecar = some (hash env.dumpOutput)
  ∧ (perform_backup hash env p).successNotified = false
  ∧ (perform_backup hash env p).result = .error (notifFail env.transportErr) := by
  have hne : p ≠ p ++ ".sha256" := Ne.symm (sidecar_ne p)
  have hv : verify_checksum hash (destFS p env.dumpOutput (hash env.dumpOutput)) p =
      .ok (true, "Checksum verification passed") := by
    simp [verify_checksum, calculate_checksum, destFS, setFile, if_neg hne, htrim]
  cases hfd : env.failureDeliveryOk <;>
    simp [perform_backup, hrc, hv, hen, hsd, handleFailure, hfd]

/-- Witness for C1 amended at a concrete environment. -/
theorem C1_notification_failure_escalates_witness :
    (perform_backup id ⟨0, "", "data", true, false, true, "x"⟩ "/p").published =
        some "data"
  ∧ (perform_backup id ⟨0, "", "data", true, false, true, "x"⟩ "/p").publishedSidecar =
      some (id "data")
  ∧ (perform_backup id ⟨0, "", "data", true, false, true, "x"⟩ "/p").successNotified =
      false
  ∧ (perform_backup id ⟨0, "", "data", true, false, true, "x"⟩ "/p").result =
      .error (notifFail "x") :=
  C1_notification_failure_escalates id ⟨0, "", "data", true, false, true, "x"⟩ "/p"
    rfl (by decide) rfl rfl

/-- C2 counterexample: the dump pipeline reports stderr output but exits
with code 0; the run still publishes the artifact, returns the path and
sends a success notification — stderr presence alone does not abort. -/
theorem C2_counterexample :
    (perform_backup id ⟨0, "mysqldump: Warning", "data", true, true, true, ""⟩
        "/p").result = .ok "/p"
  ∧ (perform_backup id ⟨0, "mysqldump: Warning", "data", true, true, true, ""⟩
        "/p").published = some "data"
  ∧ (perform_backup id ⟨0, "mysqldump: Warning", "data", true, true, true, ""⟩
        "/p").successNotified = true := by
  decide

/-- C2 amended: `perform_backup` raises `BackupProcessError` before
publishing exactly when the dump pipeline exits non-zero (stderr output
with exit code 0 does not abort the run): on a non-zero exit no artifact
and no sidecar appear in the destination and no success notification is
sent; the raised error is the `BackupProcessError` whenever the failure
notification does not itself raise. -/
theorem C2_nonzero_exit_aborts (hash : String → String) (env : RunEnv) (p : String)
    (h : env.returncode ≠ 0) :
    (perform_backup hash env p).published = none
  ∧ (perform_backup hash env p).publishedSidecar = none
  ∧ (perform_backup hash env p).successNotified = false
  ∧ (env.notifierEnabled = false ∨ env.failureDeliveryOk = true →
      (perform_backup hash env p).result =
        .error (.process ("Backup process failed: " ++ env.stderr)))
  ∧ ∃ e, (perform_backup hash env p).result = .error e := by
  cases hen : env.notifierEnabled <;> cases hfd : env.failureDeliveryOk <;>
    simp [perform_backup, if_pos h, handleFailure, hen, hfd]

/-- Witness for C2 amended at a concrete failing environment. -/
theorem C2_nonzero_exit_aborts_witness :
    (perform_backup id ⟨1, "err", "x", false, true, true, ""⟩ "/p").result =
      .error (.process ("Backup process failed: " ++ "err")) :=
  (C2_nonzero_exit_aborts id ⟨1, "err", "x", false, true, true, ""⟩ "/p"
    (by decide)).2.2.2.1 (Or.inl rfl)

/-- C7 counterexample: the cleanup's `except` handler logs and notifies
but does not re-raise — a failing cleanup body still makes
`cleanup_old_backups` return normally. -/
theorem C7_counterexample :
    cleanup_wrapper (.error (.storage "Failed to delete old backup")) true true "t" =
      (.ok (), true) := by
  decide

/-- C7 amended: per-run errors inside `perform_backup` are caught at the
boundary, a failure notification is attempted and the error is re-raised
to the caller; `cleanup_old_backups`, however, catches, logs and notifies
and then returns normally — it swallows its errors instead of
re-raising. -/
theorem C7_boundary_handling (hash : String → String) (env : RunEnv) (p : String)
    (e : BackupErr) (terr : String)
    (hrc : env.returncode ≠ 0) (hen : env.notifierEnabled = true)
    (hfd : env.failureDeliveryOk = true) :
    ((perform_backup hash env p).result =
        .error (.process ("Backup process failed: " ++ env.stderr))
      ∧ (perform_backup hash env p).failureNotified = true)
  ∧ cleanup_wrapper (.error e) true true terr = (.ok (), true)
  ∧ cleanup_wrapper (.ok ()) true true terr = (.ok (), false) := by
  refine ⟨?_, rfl, rfl⟩
  simp [perform_backup, if_pos hrc, handleFailure, hen, hfd]

/-- Witness for C7 amended at a concrete environment. -/
theorem C7_boundary_handling_witness :
    ((perform_backup id ⟨1, "boom", "x", true, true, true, "t"⟩ "/p").result =
        .error (.process ("Backup process failed: " ++ "boom"))
      ∧ (perform_backup id ⟨1, "boom", "x", true, true, true, "t"⟩ "/p").failureNotified =
        true)
  ∧ cleanup_wrapper (.error (.storage "s")) true true "t" = (.ok (), true)
  ∧ cleanup_wrapper (.ok ()) true true "t" = (.ok (), false) :=
  C7_boundary_handling id ⟨1, "boom", "x", true, true, true, "t"⟩ "/p"
    (.storage "s") "t" (by decide) rfl rfl

/-- C4: `verify_checksum` returns `(false, reason)` without raising when
the sidecar is missing or the stored digest differs from the recomputed
one; it raises `IntegrityError` exactly when the comparison cannot be
attempted because the primary file is unreadable; and it never reports an
artifact valid without a matching checksum record. -/
theorem C4_verify_checksum_outcomes (hash : String → String) (fs : FS) (p : String) :
    (fs (p ++ ".sha256") = none →
      verify_checksum hash fs p = .ok (false, "Checksum file not found"))
  ∧ (∀ stored c, fs (p ++ ".sha256") = some stored → fs p = some c →
      pyStrip stored ≠ hash c →
      verify_checksum hash fs p = .ok (false, "Checksum verification failed"))
  ∧ (∀ e, verify_checksum hash fs p = .error e → fs p = none)
  ∧ (∀ stored, fs (p ++ ".sha256") = some stored → fs p = none →
      verify_checksum hash fs p =
        .error (.integrity ("Failed to verify checksum for " ++ p)))
  ∧ (∀ msg, verify_checksum hash fs p = .ok (true, msg) →
      ∃ stored c, fs (p ++ ".sha256") = some stored ∧ fs p = some c ∧
        pyStrip stored = hash c) := by
  refine ⟨?_, ?_, ?_, ?_, ?_⟩
  · intro hs
    simp [verify_checksum, hs]
  · intro stored c hs hp hne
    simp [verify_checksum, calculate_checksum, hs, hp, hne]
  · intro e he
    cases hp : fs p with
    | none => rfl
    | some c =>
      exfalso
      cases hs : fs (p ++ ".sha256") with
      | none => simp [verify_checksum, hs] at he
      | some stored =>
        by_cases hc : pyStrip stored = hash c <;>
          simp [verify_checksum, calculate_checksum, hs, hp, hc] at he
  · intro stored hs hp
    simp [verify_checksum, calculate_checksum, hs, hp]
  · intro msg hm
    cases hs : fs (p ++ ".sha256") with
    | none => simp [verify_checksum, hs] at hm
    | some stored =>
      cases hp : fs p with
      | none => simp [verify_checksum, calculate_checksum, hs, hp] at hm
      | some c =>
        refine ⟨stored, c, rfl, rfl, ?_⟩
        by_cases hc : pyStrip stored = hash c
        · exact hc
        · simp [verify_checksum, calculate_checksum, hs, hp, hc] at hm

/-- Witness for C4: a missing sidecar and a mismatching sidecar, both
reported as business outcomes, not errors. -/
theorem C4_verify_checksum_outcomes_witness :
    verify_checksum id (fun _ => none) "f" = .ok (false, "Checksum file not found")
  ∧ verify_checksum id
      (setFile (setFile (fun _ => none) "f" "abc") "f.sha256" "bad") "f" =
      .ok (false, "Checksum verification failed") :=
  ⟨(C4_verify_checksum_outcomes id (fun _ => none) "f").1 rfl,
   (C4_verify_checksum_outcomes id
      (setFile (setFile (fun _ => none) "f" "abc") "f.sha256" "bad") "f").2.1
      "bad" "abc" (by decide) (by decide) (by decide)⟩

/-- C5: after `save_checksum` with the digest returned by
`calculate_checksum`, `verify_checksum` on the unmodified file reports
valid; after any mutation of the file content whose digest differs (in
particular any single-byte mutation, assuming no SHA-256 collision)
without rewriting the sidecar, it reports invalid. -/
theorem C5_save_verify_roundtrip (hash : String → String) (fs : FS) (p c : String)
    (hfile : fs p = some c)
    (htrim : pyStrip (hash c) = hash c) :
    calculate_checksum hash fs p = .ok (hash c)
  ∧ verify_checksum hash (save_checksum fs p (hash c)) p =
      .ok (true, "Checksum verification passed")
  ∧ ∀ c', hash c' ≠ hash c →
      verify_checksum hash (setFile (save_checksum fs p (hash c)) p c') p =
        .ok (false, "Checksum verification failed") := by
  have hne : p ≠ p ++ ".sha256" := Ne.symm (sidecar_ne p)
  refine ⟨by simp [calculate_checksum, hfile], ?_, ?_⟩
  · simp [verify_checksum, calculate_checksum, save_checksum, setFile,
      if_neg hne, hfile, htrim]
  · intro c' hc'
    have hgoal : ¬(hash c = hash c') := fun h => hc' h.symm
    simp [verify_checksum, calculate_checksum, save_checksum, setFile,
      if_neg hne, if_neg (sidecar_ne p), htrim, hgoal]

/-- Witness for C5 with the identity digest on contents `"abc"` and the
single-byte mutation `"abd"`. -/
theorem C5_save_verify_roundtrip_witness :
    calculate_checksum id (setFile (fun _ => none) "f" "abc") "f" = .ok (id "abc")
  ∧ verify_checksum id
      (save_checksum (setFile (fun _ => none) "f" "abc") "f" (id "abc")) "f" =
      .ok (true, "Checksum verification passed")
  ∧ verify_checksum id
      (setFile (save_checksum (setFile (fun _ => none) "f" "abc") "f" (id "abc"))
        "f" "abd") "f" =
      .ok (false, "Checksum verification failed") :=
  have h := C5_save_verify_roundtrip id (setFile (fun _ => none) "f" "abc") "f" "abc"
    (by decide) (by decide)
  ⟨h.1, h.2.1, h.2.2 "abd" (by decide)⟩

/-- Cancel a common left factor of a string append. -/
theorem string_append_cancel_left (a b c : String) (h : a ++ b = a ++ c) : b = c := by
  apply string_eq_of_data_eq
  have hd := congrArg String.data h
  simp only [String.data_append] at hd
  exact List.append_cancel_left hd

/-- Cancel a common right factor of a string append. -/
theorem string_append_cancel_right (a b c : String) (h : a ++ c = b ++ c) : a = b := by
  apply string_eq_of_data_eq
  have hd := congrArg String.data h
  simp only [String.data_append] at hd
  exact List.append_cancel_right hd

/-- C9: when the configuration sets a database password, the executed
command embeds the plaintext password, and the exact command string is
written to the info log; consequently two runs that differ only in the
password produce different log lines — noninterference over the password
fails. -/
theorem C9_password_reaches_log (host port user db options tmp : String) :
    (∀ pw, ("--password=" ++ pw) ∈ buildCmd ⟨host, port, user, some pw, db⟩ options tmp)
  ∧ ∀ pw₁ pw₂, pw₁ ≠ pw₂ →
      loggedCommand ⟨host, port, user, some pw₁, db⟩ options tmp ≠
        loggedCommand ⟨host, port, user, some pw₂, db⟩ options tmp := by
  constructor
  · intro pw
    simp [buildCmd]
  · intro pw1 pw2 hne heq
    have e : ∀ pw, loggedCommand ⟨host, port, user, some pw, db⟩ options tmp =
        "Executing backup command: " ++ ("mysqldump" ++ " " ++ ("--host=" ++ host ++ " " ++
          ("--port=" ++ port ++ " " ++ ("--user=" ++ user ++ " " ++
            ("--password=" ++ pw ++ " " ++
              pyJoin " " (db :: ((if options ≠ "" then pySplit options else [])
                ++ ["|", "gzip", ">", tmp]))))))) := fun pw => rfl
    rw [e pw1, e pw2] at heq
    have h1 := string_append_cancel_left _ _ _ heq
    have h2 := string_append_cancel_left _ _ _ h1
    have h3 := string_append_cancel_left _ _ _ h2
    have h4 := string_append_cancel_left _ _ _ h3
    have h5 := string_append_cancel_left _ _ _ h4
    have h6 := string_append_cancel_right _ _ _ h5
    have h7 := string_append_cancel_right _ _ _ h6
    have h8 := string_append_cancel_left _ _ _ h7
    exact hne h8

/-- Witness for C9 at a concrete configuration and two concrete passwords. -/
theorem C9_password_reaches_log_witness :
    ("--password=" ++ "hunter2") ∈
        buildCmd ⟨"dbhost", "3306", "root", some "hunter2", "shop"⟩ "" "/tmp/f"
  ∧ loggedCommand ⟨"dbhost", "3306", "root", some "alpha", "shop"⟩ "" "/tmp/f" ≠
      loggedCommand ⟨"dbhost", "3306", "root", some "beta", "shop"⟩ "" "/tmp/f" :=
  ⟨(C9_password_reaches_log "dbhost" "3306" "root" "shop" "" "/tmp/f").1 "hunter2",
   (C9_password_reaches_log "dbhost" "3306" "root" "shop" "" "/tmp/f").2
      "alpha" "beta" (by decide)⟩

/-- C3: with keep count `N ≥ 1` and `M` artifacts of one class with
pairwise distinct timestamps, the cleanup selects exactly the `M − N`
oldest artifacts for deletion (each strictly older than every kept one),
leaves exactly the `N` most recent, removes the selected artifacts
together with their existing sidecars, and deletes nothing when
`M ≤ N`. -/
theorem C3_retention_policy (keep : Nat) (files : List Artifact)
    (hk : 1 ≤ keep) :
    (files.length ≤ keep → files_to_delete keep files = [])
  ∧ ((files.map Artifact.mtime).Nodup → keep < files.length →
      (files_to_delete keep files).length = files.length - keep
    ∧ (kept_files keep files).length = keep
    ∧ (files_to_delete keep files ++ kept_files keep files).Perm files
    ∧ (∀ d ∈ files_to_delete keep files, ∀ k ∈ kept_files keep files,
        d.mtime < k.mtime))
  ∧ (∀ sc : String → Bool, ∀ f ∈ files_to_delete keep files,
      f.name ∈ removed_paths sc keep files ∧
      (sc f.name = true → (f.name ++ ".sha256") ∈ removed_paths sc keep files)) := by
  have hperm : (sortByMtime files).Perm files := List.perm_insertionSort mtimeLE files
  have hlen : (sortByMtime files).length = files.length := hperm.length_eq
  have hsorted : List.Sorted mtimeLE (sortByMtime files) :=
    List.sorted_insertionSort mtimeLE files
  refine ⟨?_, ?_, ?_⟩
  · intro hle
    have hng : ¬ ((sortByMtime files).length > keep) := by omega
    simp only [files_to_delete]
    rw [if_neg hng]
  · intro hnd hlt
    have hkeep0 : keep ≠ 0 := by omega
    have hgt : (sortByMtime files).length > keep := by omega
    have hdel : files_to_delete keep files =
        (sortByMtime files).take (files.length - keep) := by
      simp only [files_to_delete, pySliceDropLast]
      rw [if_pos hgt, if_neg hkeep0, hlen]
    have hdlen : (files_to_delete keep files).length = files.length - keep := by
      rw [hdel, List.length_take, hlen]
      exact min_eq_left (Nat.sub_le _ _)
    have hkept : kept_files keep files =
        (sortByMtime files).drop (files.length - keep) := by
      unfold kept_files
      rw [hdlen]
    have hklen : (kept_files keep files).length = keep := by
      rw [hkept, List.length_drop, hlen]
      omega
    have happ : files_to_delete keep files ++ kept_files keep files =
        sortByMtime files := by
      rw [hdel, hkept, List.take_append_drop]
    refine ⟨hdlen, hklen, ?_, ?_⟩
    · rw [happ]
      exact hperm
    · have hpair_le : List.Pairwise mtimeLE (sortByMtime files) := hsorted
      have hpair_ne : List.Pairwise (fun a b : Artifact => a.mtime ≠ b.mtime)
          (sortByMtime files) := by
        have hnd2 : ((sortByMtime files).map Artifact.mtime).Nodup :=
          ((hperm.map Artifact.mtime).nodup_iff).mpr hnd
        exact List.pairwise_map.mp hnd2
      rw [← happ] at hpair_le hpair_ne
      intro d hd k hk
      have h1 := (List.pairwise_append.mp hpair_le).2.2 d hd k hk
      have h2 := (List.pairwise_append.mp hpair_ne).2.2 d hd k hk
      exact lt_of_le_of_ne h1 h2
  · intro sc f hf
    constructor
    · exact List.mem_flatMap.mpr ⟨f, hf, by simp⟩
    · intro hsc
      exact List.mem_flatMap.mpr ⟨f, hf, by simp [hsc]⟩

/-- Witness for C3 with keep count 2 over three artifacts with distinct
timestamps: one artifact is deleted and two are kept. -/
theorem C3_retention_policy_witness :
    (files_to_delete 2 [⟨"a", 5⟩, ⟨"b", 1⟩, ⟨"c", 3⟩]).length = 1
  ∧ (kept_files 2 [⟨"a", 5⟩, ⟨"b", 1⟩, ⟨"c", 3⟩]).length = 2 :=
  have h := (C3_retention_policy 2 [⟨"a", 5⟩, ⟨"b", 1⟩, ⟨"c", 3⟩] (by decide)).2.1
    (by decide) (by decide)
  ⟨h.1, h.2.1⟩

end MySQLBackup
